import Mathlib

/-!
# Verification of the `ppb-vector` 2D vector library

Shallow embedding of `src/ppb_vector/vector2.py`. Python floats are
idealised as real numbers; Python's runtime class information is carried
explicitly (a `PyType` with its method-resolution order), since several of
the library's behaviours (result-type resolution, `convert`'s identity
optimisation, subclass preservation) are about runtime classes. Fallible
Python code (raising `ValueError`, `TypeError`, `ZeroDivisionError`,
`AttributeError`) is embedded with `Except`/`Option`; note that in Python,
float division by zero *raises* `ZeroDivisionError` rather than producing
IEEE-754 infinities.
-/

/-- The Python exception kinds relevant to `vector2.py`. -/
inductive PyError : Type
  | valueError
  | typeError
  | zeroDivisionError
  | attributeError
  | keyError
  | indexError
deriving DecidableEq, Repr

/-- A Python class, identified by its name, together with its
method-resolution order (the list of names of its ancestor classes,
starting with itself; Python guarantees the MRO has no duplicates). -/
structure PyType : Type where
  name : String
  mro : List String
deriving DecidableEq, Repr

/-- The class object for `Vector2` itself: its MRO is `[Vector2, object]`. -/
def vector2Type : PyType := ⟨"Vector2", ["Vector2", "object"]⟩

/-- A `Vector2` subclass used as a concrete instance of "application
specific subtype" in witnesses: its MRO is `[MyVector, Vector2, object]`. -/
def myVectorType : PyType := ⟨"MyVector", ["MyVector", "Vector2", "object"]⟩

/-- The class of Python tuples (not a `Vector2` subclass). -/
def tupleType : PyType := ⟨"tuple", ["tuple", "object"]⟩

/-- The class of Python dicts (not a `Vector2` subclass). -/
def dictType : PyType := ⟨"dict", ["dict", "object"]⟩

/-- `issubclass(sub, sup)`: `sup` occurs in `sub`'s MRO. -/
def pyIssubclass (sub sup : PyType) : Bool := sub.mro.contains sup.name

/-- A runtime `Vector2` instance: its concrete class (a `Vector2`
subclass) and its two float coordinates, idealised as reals.
Mirrors the frozen dataclass with fields `x` and `y`. -/
structure Vector2 : Type where
  typ : PyType
  x : ℝ
  y : ℝ

/-- `isinstance(v, cls)` for a vector object: `cls` occurs in the MRO of
`v`'s concrete class. -/
def pyIsinstance (v : Vector2) (cls : PyType) : Bool := v.typ.mro.contains cls.name

/-- `_find_lowest_type(left, right)`: compare the sizes of the two MROs
(`len(set(mro))`; the MRO is duplicate-free so this is its length) and
return the type with the larger one, preferring `left` on ties. -/
def _find_lowest_type (left right : PyType) : PyType :=
  if left.mro.length > right.mro.length then left
  else if right.mro.length > left.mro.length then right
  else left

/-- `_find_lowest_vector(left, right)`: identical types resolve to
themselves; a non-`Vector2` side is never used; two distinct `Vector2`
subclasses are resolved by `_find_lowest_type`. -/
def _find_lowest_vector (left right : PyType) : PyType :=
  if left = right then left
  else if ¬ pyIssubclass left vector2Type then right
  else if ¬ pyIssubclass right vector2Type then left
  else _find_lowest_type left right

/-- The `VectorLike` union: a `Vector2` (or subclass) instance, an ordered
sequence of floats, or a string-keyed mapping of floats. -/
inductive VLike : Type
  | obj (v : Vector2)
  | seq (xs : List ℝ)
  | map (m : List (String × ℝ))

/-- `type(value)` for a `VectorLike`. -/
def VLike.typeOf : VLike → PyType
  | .obj v => v.typ
  | .seq _ => tupleType
  | .map _ => dictType

/-- `Vector2.convert(cls, value)`: return `value` itself when it is an
instance of `cls`; rebuild at type `cls` from coordinates when it is
another `Vector2`; accept length-2 sequences and mappings with exactly the
keys `x` and `y`; otherwise raise `ValueError`. -/
def Vector2.convert (cls : PyType) : VLike → Except PyError Vector2
  | .obj v =>
    if pyIsinstance v cls then .ok v
    else .ok ⟨cls, v.x, v.y⟩
  | .seq xs =>
    if xs.length = 2 then .ok ⟨cls, xs.getD 0 0, xs.getD 1 0⟩
    else .error .valueError
  | .map m =>
    if (List.lookup "x" m).isSome ∧ (List.lookup "y" m).isSome ∧ m.length = 2 then
      .ok ⟨cls, (List.lookup "x" m).getD 0, (List.lookup "y" m).getD 0⟩
    else .error .valueError

/-- `length`: `hypot(x, y)`. -/
noncomputable def Vector2.length (v : Vector2) : ℝ :=
  Real.sqrt (v.x ^ 2 + v.y ^ 2)

/-- `asdict`: the mapping `{'x': x, 'y': y}`. -/
def Vector2.asdict (v : Vector2) : List (String × ℝ) :=
  [("x", v.x), ("y", v.y)]

/-- `__eq__` restricted to two vector instances: coordinates are equal. -/
def Vector2.eqv (a b : Vector2) : Prop := a.x = b.x ∧ a.y = b.y

/-- The result of a Python binary operator: a value, the soft
`NotImplemented` signal, or a raised exception. -/
inductive OpResult : Type
  | ok (v : Vector2)
  | notImplemented
  | raised (e : PyError)

/-- `__add__`: resolve the result type from `type(other), type(self)`,
coerce `other` through `Vector2.convert`, turning a `ValueError` into
`NotImplemented`, and add coordinate-wise. -/
def Vector2.add (self : Vector2) (other : VLike) : OpResult :=
  let rtype := _find_lowest_vector other.typeOf self.typ
  match Vector2.convert vector2Type other with
  | .error .valueError => .notImplemented
  | .error e => .raised e
  | .ok o => .ok ⟨rtype, self.x + o.x, self.y + o.y⟩

/-- `__sub__`: like `__add__` with coordinate-wise subtraction. -/
def Vector2.sub (self : Vector2) (other : VLike) : OpResult :=
  let rtype := _find_lowest_vector other.typeOf self.typ
  match Vector2.convert vector2Type other with
  | .error .valueError => .notImplemented
  | .error e => .raised e
  | .ok o => .ok ⟨rtype, self.x - o.x, self.y - o.y⟩

/-- `dot`: coerce `other` (errors propagate) and sum the coordinate
products. -/
def Vector2.dot (self : Vector2) (other : VLike) : Except PyError ℝ :=
  (Vector2.convert vector2Type other).map fun o => self.x * o.x + self.y * o.y

/-- `scale_by`: multiply both coordinates, result built by `type(self)`. -/
def Vector2.scale_by (self : Vector2) (k : ℝ) : Vector2 :=
  ⟨self.typ, self.x * k, self.y * k⟩

/-- `__neg__`: `scale_by(-1)`. -/
def Vector2.neg (self : Vector2) : Vector2 := self.scale_by (-1)

/-- `__truediv__`: divide both coordinates by a scalar; as in Python,
dividing a float by `0.0` raises `ZeroDivisionError` (it does not produce
IEEE-754 infinities). Result built by `type(self)`. -/
noncomputable def Vector2.truediv (self : Vector2) (k : ℝ) : Except PyError Vector2 :=
  if k = 0 then .error .zeroDivisionError
  else .ok ⟨self.typ, self.x / k, self.y / k⟩

/-- `math.radians`. -/
noncomputable def radians (d : ℝ) : ℝ := d * Real.pi / 180

/-- `math.degrees`. -/
noncomputable def degrees (r : ℝ) : ℝ := r * 180 / Real.pi

/-- `math.copysign(x, s)`: the magnitude of `x` with the sign of `s`
(reals have no signed zero, so `s = 0` gives `+|x|`). -/
noncomputable def copysign (x s : ℝ) : ℝ := if s < 0 then -|x| else |x|

/-- `math.atan2(y, x)`, i.e. the argument of the complex number
`x + y·i`, valued in `(-π, π]` with `atan2 0 0 = 0`. -/
noncomputable def atan2 (y x : ℝ) : ℝ := Complex.arg ⟨x, y⟩

/-- `Vector2._trig`: compute `cos`/`sin` of the angle in degrees, then
recompute whichever has the smaller absolute value from the other via
`copysign(sqrt(1 - trusted²), original)`. -/
noncomputable def Vector2._trig (angle : ℝ) : ℝ × ℝ :=
  if |Real.cos (radians angle)| > |Real.sin (radians angle)| then
    (Real.cos (radians angle),
      copysign (Real.sqrt (1 - Real.cos (radians angle) * Real.cos (radians angle)))
        (Real.sin (radians angle)))
  else
    (copysign (Real.sqrt (1 - Real.sin (radians angle) * Real.sin (radians angle)))
        (Real.cos (radians angle)),
      Real.sin (radians angle))

/-- `rotate`: apply the rotation matrix built from the stabilised pair;
result built by `type(self)`. -/
noncomputable def Vector2.rotate (self : Vector2) (angle : ℝ) : Vector2 :=
  let c := (Vector2._trig angle).1
  let s := (Vector2._trig angle).2
  ⟨self.typ, self.x * c - self.y * s, self.x * s + self.y * c⟩

/-- `angle`: `degrees(atan2(other.x, -other.y) - atan2(self.x, -self.y))`,
normalised into `(-180, 180]` by adding or subtracting `360`. -/
noncomputable def Vector2.angle (self other : Vector2) : ℝ :=
  let rv := degrees (atan2 other.x (-other.y) - atan2 self.x (-self.y))
  if rv ≤ -180 then rv + 360
  else if rv > 180 then rv - 360
  else rv

/-- `scale_to`: negative lengths raise `ValueError`; zero returns the zero
vector directly; otherwise `(length * self) / self.length` (which raises
`ZeroDivisionError` when `self` is the zero vector). -/
noncomputable def Vector2.scale_to (self : Vector2) (len : ℝ) : Except PyError Vector2 :=
  if len < 0 then .error .valueError
  else if len = 0 then .ok ⟨self.typ, 0, 0⟩
  else (self.scale_by len).truediv self.length

/-- `normalize`: `scale_to(1)`. -/
noncomputable def Vector2.normalize (self : Vector2) : Except PyError Vector2 :=
  self.scale_to 1

/-- `truncate`: return `self` itself when `self.length <= max_length`,
otherwise `scale_to(max_length)`. -/
noncomputable def Vector2.truncate (self : Vector2) (max_length : ℝ) : Except PyError Vector2 :=
  if self.length ≤ max_length then .ok self
  else self.scale_to max_length

/-- `__init__` argument validation, faithful to the source's branch order:
mixing positional and keyword arguments raises `TypeError`; zero arguments
in total, or more than two positional ones, raises `TypeError`; keyword
names other than exactly `{x, y}` *attempt* to raise `TypeError` but the
message expression `kwargs.keys().join(', ')` is invalid (`dict_keys` has
no `join` method), so an `AttributeError` is raised instead. Returns
`none` when validation passes. -/
def initValidate {α : Type} (args : List α) (kwargs : List (String × α)) : Option PyError :=
  if args.isEmpty = false ∧ kwargs.isEmpty = false then some .typeError
  else if (args.isEmpty = true ∧ kwargs.isEmpty = true) ∨ args.length > 2 then some .typeError
  else if kwargs.isEmpty = false ∧ (kwargs.map Prod.fst).toFinset ≠ ({"x", "y"} : Finset String) then
    some .attributeError
  else none

/-! ## Helper lemmas -/

lemma copysign_sq (x s : ℝ) : copysign x s ^ 2 = x ^ 2 := by
  unfold copysign
  split_ifs <;> simp [neg_sq, sq_abs]

lemma copysign_nonneg (x s : ℝ) (h : 0 ≤ s) : 0 ≤ copysign x s := by
  unfold copysign
  rw [if_neg (not_lt.2 h)]
  exact abs_nonneg x

lemma copysign_nonpos (x s : ℝ) (h : s < 0) : copysign x s ≤ 0 := by
  unfold copysign
  rw [if_pos h]
  exact neg_nonpos.2 (abs_nonneg x)

lemma atan2_range (y x : ℝ) : -Real.pi < atan2 y x ∧ atan2 y x ≤ Real.pi :=
  ⟨Complex.neg_pi_lt_arg _, Complex.arg_le_pi _⟩

lemma convert_error_is_valueError (cls : PyType) (b : VLike) (e : PyError)
    (h : Vector2.convert cls b = Except.error e) : e = PyError.valueError := by
  cases b <;> (simp only [Vector2.convert] at h; split_ifs at h <;> simp_all)

lemma truediv_typ (u : Vector2) (k : ℝ) (w : Vector2)
    (h : u.truediv k = Except.ok w) : w.typ = u.typ := by
  unfold Vector2.truediv at h
  split_ifs at h
  simp_all
  rw [← h]

lemma scale_to_typ (u : Vector2) (l : ℝ) (w : Vector2)
    (h : u.scale_to l = Except.ok w) : w.typ = u.typ := by
  unfold Vector2.scale_to at h
  split_ifs at h
  · simp_all
    rw [← h]
  · exact truediv_typ (u.scale_by l) u.length w h

/-! ## Claim theorems -/

/-- Claim C4: for binary add/subtract, the result type is resolved from
the two operand types: identical types resolve to themselves; if exactly
one side is a `Vector2` subclass, that side wins; if both are, the one
with the longer MRO wins, with ties resolving deterministically to the
left argument; and `__add__` builds its result with
`_find_lowest_vector(type(other), type(self))`. -/
theorem find_lowest_vector_spec (l r : PyType) :
    (l = r → _find_lowest_vector l r = l)
  ∧ (pyIssubclass l vector2Type = true → pyIssubclass r vector2Type = false →
      _find_lowest_vector l r = l)
  ∧ (pyIssubclass l vector2Type = false → pyIssubclass r vector2Type = true →
      _find_lowest_vector l r = r)
  ∧ (l ≠ r → pyIssubclass l vector2Type = true → pyIssubclass r vector2Type = true →
      l.mro.length > r.mro.length → _find_lowest_vector l r = l)
  ∧ (l ≠ r → pyIssubclass l vector2Type = true → pyIssubclass r vector2Type = true →
      r.mro.length > l.mro.length → _find_lowest_vector l r = r)
  ∧ (l ≠ r → pyIssubclass l vector2Type = true → pyIssubclass r vector2Type = true →
      l.mro.length = r.mro.length → _find_lowest_vector l r = l)
  ∧ (∀ (self : Vector2) (other : VLike) (res : Vector2),
      Vector2.add self other = OpResult.ok res →
      res.typ = _find_lowest_vector other.typeOf self.typ) := by
  refine ⟨fun h => ?_, fun hl hr => ?_, fun hl hr => ?_,
    fun hne hl hr hlen => ?_, fun hne hl hr hlen => ?_, fun hne hl hr hlen => ?_,
    fun self other res h => ?_⟩
  · simp [_find_lowest_vector, h]
  · by_cases hlr : l = r
    · simp [_find_lowest_vector, hlr]
    · simp [_find_lowest_vector, hlr, hl, hr]
  · have hlr : l ≠ r := fun h => by simp [h, hr] at hl
    simp [_find_lowest_vector, hlr, hl]
  · simp [_find_lowest_vector, hne, hl, hr, _find_lowest_type, hlen]
  · simp [_find_lowest_vector, hne, hl, hr, _find_lowest_type, hlen,
      Nat.not_lt.2 (Nat.le_of_lt hlen)]
  · simp [_find_lowest_vector, hne, hl, hr, _find_lowest_type, hlen]
  · unfold Vector2.add at h
    cases hc : Vector2.convert vector2Type other with
    | error e =>
      cases e <;> simp_all
    | ok o =>
      simp only [hc] at h
      cases h
      rfl

/-- Claim C4 witness: a `Vector2` subclass with a longer MRO wins over
`Vector2` itself, and `__add__` builds its result with the resolved
type. -/
theorem find_lowest_vector_spec_witness :
    _find_lowest_vector myVectorType vector2Type = myVectorType
  ∧ (⟨myVectorType, 1 + 5, 2 + 6⟩ : Vector2).typ
      = _find_lowest_vector (VLike.obj ⟨myVectorType, 5, 6⟩).typeOf vector2Type := by
  constructor
  · exact (find_lowest_vector_spec myVectorType vector2Type).2.2.2.1
      (by decide) (by decide) (by decide) (by decide)
  · exact (find_lowest_vector_spec myVectorType vector2Type).2.2.2.2.2.2
      ⟨vector2Type, 1, 2⟩ (VLike.obj ⟨myVectorType, 5, 6⟩) ⟨myVectorType, 1 + 5, 2 + 6⟩ rfl

/-- Claim C5 counterexample: `Vector2.convert` applied to an instance of a
proper subclass returns that very instance, so the result's concrete type
is *not* the target type even though the value's concrete type differs
from the target; the claim's second half is false for subclass
instances. -/
theorem convert_subtype_counterexample :
    pyIssubclass myVectorType vector2Type = true
  ∧ myVectorType ≠ vector2Type
  ∧ Vector2.convert vector2Type (VLike.obj ⟨myVectorType, 1, 2⟩)
      = Except.ok ⟨myVectorType, 1, 2⟩
  ∧ (⟨myVectorType, 1, 2⟩ : Vector2).typ ≠ vector2Type := by
  refine ⟨by decide, by decide, ?_, by decide⟩
  rfl

/-- Claim C5 (amended): `convert` returns the same instance whenever the
value is an *instance* of the target type (its concrete type equal to or a
subclass of the target); only when the value is a `Vector2` that is not an
instance of the target type does it construct a new instance of the target
type from the value's coordinates. -/
theorem convert_identity_and_rebuild (cls : PyType) (v : Vector2) :
    (pyIsinstance v cls = true → Vector2.convert cls (VLike.obj v) = Except.ok v)
  ∧ (pyIsinstance v cls = false →
      Vector2.convert cls (VLike.obj v) = Except.ok ⟨cls, v.x, v.y⟩) := by
  constructor <;> intro h <;> simp [Vector2.convert, h]

/-- Claim C5 witness: a `Vector2`-typed instance is returned unchanged,
and a dict-typed value's vector is rebuilt at the target type. -/
theorem convert_identity_and_rebuild_witness :
    Vector2.convert vector2Type (VLike.obj ⟨vector2Type, 3, 4⟩)
      = Except.ok ⟨vector2Type, 3, 4⟩
  ∧ Vector2.convert myVectorType (VLike.obj ⟨vector2Type, 3, 4⟩)
      = Except.ok ⟨myVectorType, 3, 4⟩ :=
  ⟨(convert_identity_and_rebuild vector2Type ⟨vector2Type, 3, 4⟩).1 (by decide),
   (convert_identity_and_rebuild myVectorType ⟨vector2Type, 3, 4⟩).2 (by decide)⟩

/-- Claim C7: when the right operand cannot be coerced to a vector,
`__add__` and `__sub__` return the soft `NotImplemented` signal, while
`dot` propagates the coercion failure as a hard error. -/
theorem add_sub_soft_dot_hard (a : Vector2) (b : VLike) (e : PyError)
    (h : Vector2.convert vector2Type b = Except.error e) :
    Vector2.add a b = OpResult.notImplemented
  ∧ Vector2.sub a b = OpResult.notImplemented
  ∧ Vector2.dot a b = Except.error e := by
  have he := convert_error_is_valueError _ _ _ h
  subst he
  refine ⟨?_, ?_, ?_⟩ <;> simp [Vector2.add, Vector2.sub, Vector2.dot, h, Except.map]

/-- Claim C7 witness: a length-1 sequence is not coercible; `__add__` and
`__sub__` yield `NotImplemented` on it and `dot` raises `ValueError`. -/
theorem add_sub_soft_dot_hard_witness :
    Vector2.convert vector2Type (VLike.seq [1]) = Except.error PyError.valueError
  ∧ Vector2.add ⟨vector2Type, 1, 2⟩ (VLike.seq [1]) = OpResult.notImplemented
  ∧ Vector2.sub ⟨vector2Type, 1, 2⟩ (VLike.seq [1]) = OpResult.notImplemented
  ∧ Vector2.dot ⟨vector2Type, 1, 2⟩ (VLike.seq [1]) = Except.error PyError.valueError := by
  have h : Vector2.convert vector2Type (VLike.seq [1])
      = Except.error PyError.valueError := rfl
  exact ⟨h, add_sub_soft_dot_hard ⟨vector2Type, 1, 2⟩ (VLike.seq [1]) PyError.valueError h⟩

/-- Claim C8: evaluating the constructor's argument validation: mixing
positional and keyword arguments raises `TypeError`; zero arguments
raises `TypeError`; more than two positional arguments raises `TypeError`;
but keyword names other than exactly `{x, y}` raise `AttributeError` (the
error-message expression `kwargs.keys().join(', ')` is invalid), not the
intended `TypeError`; valid calls pass. -/
theorem initValidate_eval :
    initValidate ([0] : List ℕ) [("x", 0)] = some PyError.typeError
  ∧ initValidate ([] : List ℕ) ([] : List (String × ℕ)) = some PyError.typeError
  ∧ initValidate ([0, 1, 2] : List ℕ) [] = some PyError.typeError
  ∧ initValidate ([] : List ℕ) [("a", 0)] = some PyError.attributeError
  ∧ initValidate ([] : List ℕ) [("x", 0), ("y", 1)] = none
  ∧ initValidate ([0, 1] : List ℕ) ([] : List (String × ℕ)) = none := by
  decide

/-- Claim C10: `convert` applied to `asdict(v)` succeeds through the
mapping branch and the result is equal (in the `__eq__` sense, coordinate
wise) to `v`. -/
theorem convert_asdict_roundtrip (cls : PyType) (v : Vector2) :
    Vector2.convert cls (VLike.map v.asdict) = Except.ok ⟨cls, v.x, v.y⟩
  ∧ Vector2.eqv ⟨cls, v.x, v.y⟩ v :=
  ⟨rfl, rfl, rfl⟩

/-- Claim C1 counterexample: dividing by the scalar zero, and
`scale_to`/`normalize` on the zero vector with positive target length, do
*not* silently produce IEEE-754 infinite/NaN coordinates: Python float
division by zero raises `ZeroDivisionError`, and these operations raise it
at these concrete inputs. -/
theorem div_zero_counterexample :
    (⟨vector2Type, 1, 2⟩ : Vector2).truediv 0 = Except.error PyError.zeroDivisionError
  ∧ (⟨vector2Type, 0, 0⟩ : Vector2).scale_to 1 = Except.error PyError.zeroDivisionError
  ∧ (⟨vector2Type, 0, 0⟩ : Vector2).normalize = Except.error PyError.zeroDivisionError := by
  refine ⟨by simp [Vector2.truediv], ?_, ?_⟩ <;>
    norm_num [Vector2.scale_to, Vector2.normalize, Vector2.scale_by,
      Vector2.truediv, Vector2.length]

/-- Claim C1 (amended): dividing any vector by the scalar zero raises
`ZeroDivisionError`, and `scale_to`/`normalize` applied to the zero vector
with a positive target length raise `ZeroDivisionError`, rather than
yielding IEEE-754 infinite/NaN coordinates or any vector at all. -/
theorem div_zero_raises (v : Vector2) (t : PyType) (l : ℝ) (hl : 0 < l) :
    v.truediv 0 = Except.error PyError.zeroDivisionError
  ∧ Vector2.scale_to ⟨t, 0, 0⟩ l = Except.error PyError.zeroDivisionError
  ∧ Vector2.normalize ⟨t, 0, 0⟩ = Except.error PyError.zeroDivisionError := by
  refine ⟨by simp [Vector2.truediv], ?_, ?_⟩
  · unfold Vector2.scale_to
    rw [if_neg (not_lt.2 hl.le), if_neg (by positivity : l ≠ 0)]
    norm_num [Vector2.scale_by, Vector2.truediv, Vector2.length]
  · norm_num [Vector2.normalize, Vector2.scale_to, Vector2.scale_by,
      Vector2.truediv, Vector2.length]

/-- Claim C1 witness. -/
theorem div_zero_raises_witness :
    (0 : ℝ) < 1
  ∧ ((⟨myVectorType, 5, 6⟩ : Vector2).truediv 0 = Except.error PyError.zeroDivisionError
  ∧ Vector2.scale_to ⟨myVectorType, 0, 0⟩ 1 = Except.error PyError.zeroDivisionError
  ∧ Vector2.normalize ⟨myVectorType, 0, 0⟩ = Except.error PyError.zeroDivisionError) :=
  ⟨by norm_num, div_zero_raises ⟨myVectorType, 5, 6⟩ myVectorType 1 (by norm_num)⟩

/-- Claim C2: the stabilised pair returned by `_trig` satisfies the
Pythagorean identity `cos² + sin² = 1` exactly (hence within the claimed
`1e-18` relative tolerance), and each component keeps the sign of the
plainly computed `cos`/`sin` of the angle. -/
theorem trig_pythagorean (θ : ℝ) :
    (Vector2._trig θ).1 ^ 2 + (Vector2._trig θ).2 ^ 2 = 1
  ∧ (0 ≤ Real.cos (radians θ) → 0 ≤ (Vector2._trig θ).1)
  ∧ (Real.cos (radians θ) < 0 → (Vector2._trig θ).1 ≤ 0)
  ∧ (0 ≤ Real.sin (radians θ) → 0 ≤ (Vector2._trig θ).2)
  ∧ (Real.sin (radians θ) < 0 → (Vector2._trig θ).2 ≤ 0) := by
  unfold Vector2._trig
  have hc : Real.cos (radians θ) * Real.cos (radians θ) ≤ 1 := by
    nlinarith [Real.neg_one_le_cos (radians θ), Real.cos_le_one (radians θ)]
  have hs : Real.sin (radians θ) * Real.sin (radians θ) ≤ 1 := by
    nlinarith [Real.neg_one_le_sin (radians θ), Real.sin_le_one (radians θ)]
  split_ifs with h
  · refine ⟨?_, fun h1 => h1, fun h1 => h1.le, fun h1 => ?_, fun h1 => ?_⟩
    · dsimp only
      rw [copysign_sq, Real.sq_sqrt (by linarith)]
      ring
    · exact copysign_nonneg _ _ h1
    · exact copysign_nonpos _ _ h1
  · refine ⟨?_, fun h1 => ?_, fun h1 => ?_, fun h1 => h1, fun h1 => h1.le⟩
    · dsimp only
      rw [copysign_sq, Real.sq_sqrt (by linarith)]
      ring
    · exact copysign_nonneg _ _ h1
    · exact copysign_nonpos _ _ h1

/-- Claim C2 witness: at angle `0`, the pair is `(1, 0)`, the identity
holds and both signs are non-negative. -/
theorem trig_pythagorean_witness :
    (Vector2._trig 0).1 ^ 2 + (Vector2._trig 0).2 ^ 2 = 1
  ∧ 0 ≤ (Vector2._trig 0).1 ∧ 0 ≤ (Vector2._trig 0).2 := by
  obtain ⟨h1, h2, _, h4, _⟩ := trig_pythagorean 0
  refine ⟨h1, h2 ?_, h4 ?_⟩ <;> simp [radians]

/-- Claim C3: `angle` is the normalisation of
`degrees(atan2(b.x, -b.y) - atan2(a.x, -a.y))` by `±360` at the
boundaries, and it always lies in the half-open interval `(-180, 180]`. -/
theorem angle_range (a b : Vector2) :
    -180 < a.angle b ∧ a.angle b ≤ 180 := by
  have hpi := Real.pi_pos
  obtain ⟨h1a, h1b⟩ := atan2_range b.x (-b.y)
  obtain ⟨h2a, h2b⟩ := atan2_range a.x (-a.y)
  unfold Vector2.angle degrees
  dsimp only
  have hub : (atan2 b.x (-b.y) - atan2 a.x (-a.y)) * 180 / Real.pi < 360 := by
    rw [div_lt_iff₀ hpi]
    nlinarith
  have hlb : -360 < (atan2 b.x (-b.y) - atan2 a.x (-a.y)) * 180 / Real.pi := by
    rw [neg_lt, ← neg_div, ← neg_mul]
    rw [div_lt_iff₀ hpi] at *
    nlinarith
  split_ifs with hA hB
  · constructor <;> linarith
  · constructor <;> linarith
  · constructor <;> linarith

/-- Claim C6: `truncate` returns the receiver itself, unchanged, whenever
its length is at most `max_length`; otherwise it returns exactly
`scale_to(max_length)`. -/
theorem truncate_identity (v : Vector2) (m : ℝ) :
    (v.length ≤ m → v.truncate m = Except.ok v)
  ∧ (¬ v.length ≤ m → v.truncate m = v.scale_to m) := by
  constructor <;> intro h <;> simp [Vector2.truncate, h]

/-- Claim C6 witness: the vector `(3, 4)` of length `5` is returned
unchanged when truncated to `5`. -/
theorem truncate_identity_witness :
    (⟨vector2Type, 3, 4⟩ : Vector2).truncate 5
      = Except.ok ⟨vector2Type, 3, 4⟩ := by
  have hlen : (⟨vector2Type, 3, 4⟩ : Vector2).length ≤ 5 := by
    unfold Vector2.length
    rw [show ((⟨vector2Type, 3, 4⟩ : Vector2).x ^ 2 + (⟨vector2Type, 3, 4⟩ : Vector2).y ^ 2 : ℝ)
        = 5 ^ 2 by norm_num]
    rw [Real.sqrt_sq (by norm_num : (0:ℝ) ≤ 5)]
  exact (truncate_identity ⟨vector2Type, 3, 4⟩ 5).1 hlen

/-- Claim C9: every vector-returning operation on a single receiver
(`scale_by`, negation, scalar division, `rotate`, `truncate`, `scale_to`,
`normalize`) builds its result with the receiver's own concrete type. -/
theorem subclass_type_preserved (v : Vector2) (k θ m l : ℝ) :
    (v.scale_by k).typ = v.typ
  ∧ v.neg.typ = v.typ
  ∧ (∀ w, v.truediv k = Except.ok w → w.typ = v.typ)
  ∧ (v.rotate θ).typ = v.typ
  ∧ (∀ w, v.truncate m = Except.ok w → w.typ = v.typ)
  ∧ (∀ w, v.scale_to l = Except.ok w → w.typ = v.typ)
  ∧ (∀ w, v.normalize = Except.ok w → w.typ = v.typ) := by
  refine ⟨rfl, rfl, fun w h => truediv_typ v k w h, rfl, fun w h => ?_,
    fun w h => scale_to_typ v l w h, fun w h => scale_to_typ v 1 w h⟩
  unfold Vector2.truncate at h
  split_ifs at h
  · simp_all
  · exact scale_to_typ v m w h

/-- Claim C9 witness: a `MyVector`-typed receiver keeps its type under
`scale_by` and under scalar division. -/
theorem subclass_type_preserved_witness :
    ((⟨myVectorType, 3, 4⟩ : Vector2).scale_by 2).typ = myVectorType
  ∧ (⟨myVectorType, 3 / 2, 4 / 2⟩ : Vector2).typ = myVectorType := by
  have h2 : (⟨myVectorType, 3, 4⟩ : Vector2).truediv 2
      = Except.ok ⟨myVectorType, 3 / 2, 4 / 2⟩ := by
    norm_num [Vector2.truediv]
  exact ⟨(subclass_type_preserved ⟨myVectorType, 3, 4⟩ 2 0 0 0).1,
    (subclass_type_preserved ⟨myVectorType, 3, 4⟩ 2 0 0 0).2.2.1 _ h2⟩
